import Mathlib

/-!
Shallow embedding of the navda backend core: the conflict-detection agent
(`backend/agents/conflict_detection_agent.py`), the resolution agent
(`backend/agents/resolution_agent.py`) and the agent coordinator
(`backend/services/agent_coordinator.py`), together with theorems about
their behaviour.

Modelling conventions:
- Python floats are modelled as real numbers (`ℝ`); event timestamps,
  which are only compared, are modelled as rationals (`ℚ`) to keep the
  coordinator fragment executable.
- `datetime.now()` at a call site is passed in explicitly as a `now`
  parameter (seconds on an arbitrary clock); `timedelta(seconds = x)`
  is addition of `x`.
- A Python `dict` is an insertion-ordered association list with unique
  keys (`PyDict`); `d[k] = v` replaces in place when `k` is present and
  appends otherwise, `del d[k]` removes the entry, `k in d` is a key
  scan.
- Fallible Python code is embedded in `Except String`; a `try/except`
  that logs and continues is embedded by consuming the `Except` value
  and proceeding.
- Display-only string fields that interpolate floating-point numbers
  (`description`, `alert_id`, `strategy_id`, log text) are omitted from
  the structures: no control flow in the embedded core reads them, with
  one documented exception (`_suggest_vector_clearance` and
  `_suggest_route_deviation`, whose f-strings raise; see their
  definitions).
-/

namespace Navda

/-! ## Data model (conflict_detection_agent.py) -/

/-- Types of conflicts that can be detected (`ConflictType`). -/
inductive ConflictType where
  | horizontal
  | vertical
  | both
  | loss_of_separation
deriving DecidableEq, Repr

/-- Severity levels for conflicts (`SeverityLevel`). -/
inductive SeverityLevel where
  | low
  | medium
  | high
  | critical
deriving DecidableEq, Repr

/-- The `.value` string of a `ConflictType` member. -/
def ConflictType.val : ConflictType → String
  | .horizontal => "horizontal"
  | .vertical => "vertical"
  | .both => "both"
  | .loss_of_separation => "loss_of_separation"

/-- The `.value` string of a `SeverityLevel` member. -/
def SeverityLevel.val : SeverityLevel → String
  | .low => "low"
  | .medium => "medium"
  | .high => "high"
  | .critical => "critical"

/-- Python equality between a `SeverityLevel` enum member and a `str`.
`Enum.__eq__` does not compare against strings (it falls back to object
identity), so `SeverityLevel.CRITICAL == "critical"` is `False` in
Python, whatever the string is. The resolution agent compares
`conflict.severity` — a `SeverityLevel` member wherever the core
constructs an alert — against string literals in
`_suggest_heading_change`, `_suggest_altitude_change`,
`_suggest_speed_adjustment` and `_calculate_confidence`; this helper
embeds those comparisons. -/
def severityEqPyStr (_s : SeverityLevel) (_t : String) : Bool := false

/-- An aircraft state (`Aircraft` dataclass). Fields never read by the
embedded core (`origin_country`, `on_ground`, `squawk`, `spi`,
`position_source`, `predicted_trajectory`, `last_update`) are omitted;
`track_history` keeps the (lat, lon, alt) triples whose count the
confidence heuristic reads. -/
structure Aircraft where
  icao24 : String
  callsign : String
  latitude : ℝ
  longitude : ℝ
  altitude : ℝ
  velocity : ℝ
  heading : ℝ
  vertical_rate : ℝ
  timestamp : ℝ := 0
  track_history : List (ℝ × ℝ × ℝ) := []

/-- A detected conflict (`ConflictAlert` dataclass). The display-only
`alert_id` string and the always-empty `conflict_geometry` /
`weather_impact` dicts are omitted; `detection_time` and
`resolution_deadline` are clock seconds. -/
structure ConflictAlert where
  aircraft1 : Aircraft
  aircraft2 : Aircraft
  time_to_conflict : ℝ
  separation_distance : ℝ
  vertical_separation : ℝ
  conflict_type : ConflictType
  severity : SeverityLevel
  suggested_actions : List String
  confidence : ℝ := 0
  detection_time : ℝ := 0
  resolution_deadline : Option ℝ := none
  closest_approach_time : ℝ := 0
  closest_approach_distance : ℝ := 0

/-! ## Geodesy primitives -/

/-- ICAO horizontal separation minimum (`self.horizontal_separation_min`), NM. -/
def horizontal_separation_min : ℝ := 5
/-- ICAO vertical separation minimum (`self.vertical_separation_min`), ft. -/
def vertical_separation_min : ℝ := 1000
/-- Prediction horizon (`self.time_horizon`), seconds. -/
def time_horizon : ℝ := 300
/-- Earth radius used by the haversine formula, nautical miles. -/
def earth_radius_nm : ℝ := 3440.065

noncomputable section

/-- `math.radians`: degrees to radians. -/
def radians (d : ℝ) : ℝ := d * (Real.pi / 180)

/-- The haversine intermediate `a` of `calculate_distance`:
`sin²(Δlat/2) + cos lat1 · cos lat2 · sin²(Δlon/2)` with all angles in
radians. -/
def haversine_a (lat1 lon1 lat2 lon2 : ℝ) : ℝ :=
  Real.sin ((radians lat2 - radians lat1) / 2) ^ 2 +
    Real.cos (radians lat1) * Real.cos (radians lat2) *
      Real.sin ((radians lon2 - radians lon1) / 2) ^ 2

/-- The central angle `c = 2·asin(√a)` of `calculate_distance`. -/
def central_angle (lat1 lon1 lat2 lon2 : ℝ) : ℝ :=
  2 * Real.arcsin (Real.sqrt (haversine_a lat1 lon1 lat2 lon2))

/-- `calculate_distance`: great-circle distance between two points in
nautical miles (haversine formula). -/
def calculate_distance (lat1 lon1 lat2 lon2 : ℝ) : ℝ :=
  earth_radius_nm * central_angle lat1 lon1 lat2 lon2

/-- `calculate_vertical_separation`: absolute altitude difference, feet. -/
def calculate_vertical_separation (alt1 alt2 : ℝ) : ℝ := |alt1 - alt2|

/-- `predict_aircraft_position`: linear extrapolation of an aircraft
position `time_ahead` seconds out. (Python float division by zero at
`cos(latitude) = 0` would raise; real division yields `0` there — the
claims proved below never evaluate this function at such a latitude.) -/
def predict_aircraft_position (aircraft : Aircraft) (time_ahead : ℝ) :
    ℝ × ℝ × ℝ :=
  let lat_velocity :=
    aircraft.velocity * Real.cos (radians aircraft.heading) / 111000
  let lon_velocity :=
    aircraft.velocity * Real.sin (radians aircraft.heading) /
      (111000 * Real.cos (radians aircraft.latitude))
  let vertical_velocity_fpm := aircraft.vertical_rate * 196.85
  let altitude_change := vertical_velocity_fpm * time_ahead / 60
  (aircraft.latitude + lat_velocity * time_ahead,
   aircraft.longitude + lon_velocity * time_ahead,
   aircraft.altitude + altitude_change)

/-! ## ConflictDetectionAgent: alert construction -/

/-- `calculate_conflict_confidence`: heuristic confidence score for a
conflict prediction, base `0.5` plus bracket bonuses, clamped to
`[0, 1]` by `min(max(confidence, 0.0), 1.0)`. -/
def calculate_conflict_confidence (aircraft1 aircraft2 : Aircraft)
    (time_to_conflict horizontal_sep vertical_sep : ℝ) : ℝ :=
  let confidence : ℝ := 0.5
  let confidence :=
    if time_to_conflict < 60 then confidence + 0.3
    else if time_to_conflict < 120 then confidence + 0.2
    else if time_to_conflict < 180 then confidence + 0.1
    else confidence
  let sepToMin := horizontal_sep / horizontal_separation_min
  let confidence :=
    if sepToMin < 0.5 then confidence + 0.2
    else if sepToMin < 0.8 then confidence + 0.1
    else confidence
  let vertToMin := vertical_sep / vertical_separation_min
  let confidence :=
    if vertToMin < 0.5 then confidence + 0.2
    else if vertToMin < 0.8 then confidence + 0.1
    else confidence
  let confidence :=
    if 3 ≤ aircraft1.track_history.length ∧ 3 ≤ aircraft2.track_history.length
    then confidence + 0.1 else confidence
  min (max confidence 0) 1

/-- `_generate_suggested_actions`: free-text resolution hints. Called
with the `.value` strings of the conflict type and severity. -/
def _generate_suggested_actions (aircraft1 aircraft2 : Aircraft)
    (conflict_type severity : String) : List String :=
  let actions : List String := []
  let actions :=
    if conflict_type = "horizontal" ∨ conflict_type = "both" then
      let heading_diff := |aircraft1.heading - aircraft2.heading|
      let heading_diff :=
        if 180 < heading_diff then 360 - heading_diff else heading_diff
      if heading_diff < 30 then
        actions ++ ["Turn " ++ aircraft1.callsign ++ " left 30 degrees",
                    "Turn " ++ aircraft2.callsign ++ " right 30 degrees"]
      else
        actions ++ ["Turn " ++ aircraft1.callsign ++ " left 15 degrees",
                    "Turn " ++ aircraft2.callsign ++ " right 15 degrees"]
    else actions
  let actions :=
    if conflict_type = "vertical" ∨ conflict_type = "both" then
      if aircraft2.altitude < aircraft1.altitude then
        actions ++ ["Descend " ++ aircraft1.callsign ++ " 1000 feet",
                    "Climb " ++ aircraft2.callsign ++ " 1000 feet"]
      else
        actions ++ ["Climb " ++ aircraft1.callsign ++ " 1000 feet",
                    "Descend " ++ aircraft2.callsign ++ " 1000 feet"]
    else actions
  if severity = "high" ∨ severity = "critical" then
    actions ++ ["Reduce speed " ++ aircraft1.callsign ++ " by 50 knots",
                "Reduce speed " ++ aircraft2.callsign ++ " by 50 knots"]
  else actions

/-- Sample instants of `_calculate_closest_approach`: Python
`range(0, int(time_to_conflict) + 60, 15)`. The function is only called
with `time_to_conflict ≥ 0`, where `int` truncation is `⌊·⌋`. -/
def closest_approach_samples (time_to_conflict : ℝ) : List ℝ :=
  (List.range ((⌊time_to_conflict⌋.toNat + 60 + 14) / 15)).map
    (fun k => (15 : ℝ) * k)

/-- `_calculate_closest_approach`: coarse numerical minimum of the
predicted pairwise distance, sampled every 15 s. Python seeds the scan
with `min_distance = float('inf')`, which the first sample always
strictly improves; the sample list here is nonempty (its length is at
least four), so seeding the fold with the first sample is equivalent. -/
def _calculate_closest_approach (aircraft1 aircraft2 : Aircraft)
    (time_to_conflict : ℝ) : ℝ × ℝ :=
  let distAt := fun (t : ℝ) =>
    let p1 := predict_aircraft_position aircraft1 t
    let p2 := predict_aircraft_position aircraft2 t
    calculate_distance p1.1 p1.2.1 p2.1 p2.2.1
  match closest_approach_samples time_to_conflict with
  | [] => (0, 0)
  | t0 :: rest =>
    rest.foldl
      (fun best t => if distAt t < best.2 then (t, distAt t) else best)
      (t0, distAt t0)

/-- `_create_conflict_alert`: build a `ConflictAlert` with type,
severity, confidence, suggested actions, closest approach and (for
High/Critical severity) a resolution deadline `now + (ttc − 30)`
seconds. `now` is the `datetime.now()` of the call. -/
def _create_conflict_alert (now : ℝ) (aircraft1 aircraft2 : Aircraft)
    (time_to_conflict horizontal_sep vertical_sep : ℝ) : ConflictAlert :=
  let conflict_type :=
    if horizontal_sep < horizontal_separation_min ∧
        vertical_separation_min ≤ vertical_sep then ConflictType.horizontal
    else if horizontal_separation_min ≤ horizontal_sep ∧
        vertical_sep < vertical_separation_min then ConflictType.vertical
    else ConflictType.both
  let severity :=
    if time_to_conflict < 60 then SeverityLevel.critical
    else if time_to_conflict < 120 then SeverityLevel.high
    else if time_to_conflict < 180 then SeverityLevel.medium
    else SeverityLevel.low
  let confidence := calculate_conflict_confidence aircraft1 aircraft2
    time_to_conflict horizontal_sep vertical_sep
  let suggested_actions := _generate_suggested_actions aircraft1 aircraft2
    conflict_type.val severity.val
  let closest := _calculate_closest_approach aircraft1 aircraft2 time_to_conflict
  let resolution_deadline :=
    if severity = SeverityLevel.high ∨ severity = SeverityLevel.critical then
      some (now + (time_to_conflict - 30))
    else none
  { aircraft1 := aircraft1
    aircraft2 := aircraft2
    time_to_conflict := time_to_conflict
    separation_distance := horizontal_sep
    vertical_separation := vertical_sep
    conflict_type := conflict_type
    severity := severity
    suggested_actions := suggested_actions
    confidence := confidence
    detection_time := now
    resolution_deadline := resolution_deadline
    closest_approach_time := closest.1
    closest_approach_distance := closest.2 }

/-! ## ConflictDetectionAgent: detection -/

/-- The fixed prediction instants of `detect_conflicts`
(`time_steps = [30, 60, 120, 180, 300]`). -/
def time_steps : List ℝ := [30, 60, 120, 180, 300]

/-- The inner time-step walk of `detect_conflicts` for one pair:
stop at the first step beyond the horizon (`break`), otherwise
extrapolate both aircraft and emit an alert at the first step whose
predicted separation violates both minima. -/
def scan_time_steps (now : ℝ) (aircraft1 aircraft2 : Aircraft) :
    List ℝ → Option ConflictAlert
  | [] => none
  | time_ahead :: rest =>
    if time_horizon < time_ahead then none
    else
      let p1 := predict_aircraft_position aircraft1 time_ahead
      let p2 := predict_aircraft_position aircraft2 time_ahead
      let predicted_horizontal := calculate_distance p1.1 p1.2.1 p2.1 p2.2.1
      let predicted_vertical := calculate_vertical_separation p1.2.2 p2.2.2
      if predicted_horizontal < horizontal_separation_min ∧
          predicted_vertical < vertical_separation_min then
        some (_create_conflict_alert now aircraft1 aircraft2 time_ahead
          predicted_horizontal predicted_vertical)
      else scan_time_steps now aircraft1 aircraft2 rest

/-- The per-pair body of `detect_conflicts`: an immediate alert when the
current separation already violates both minima (time-to-conflict 0),
otherwise the earliest predicted conflict on the fixed instants. -/
def pair_alert (now : ℝ) (aircraft1 aircraft2 : Aircraft) :
    Option ConflictAlert :=
  let current_horizontal := calculate_distance aircraft1.latitude
    aircraft1.longitude aircraft2.latitude aircraft2.longitude
  let current_vertical := calculate_vertical_separation aircraft1.altitude
    aircraft2.altitude
  if current_horizontal < horizontal_separation_min ∧
      current_vertical < vertical_separation_min then
    some (_create_conflict_alert now aircraft1 aircraft2 0
      current_horizontal current_vertical)
  else scan_time_steps now aircraft1 aircraft2 time_steps

end

/-- The ordered pairs visited by the nested loops of `detect_conflicts`
(`for i, a1 in enumerate(l): for a2 in l[i+1:]`). -/
def allPairs {α : Type} : List α → List (α × α)
  | [] => []
  | x :: xs => xs.map (fun y => (x, y)) ++ allPairs xs

/-- `detect_conflicts`: pairwise scan of a snapshot, collecting the
per-pair alerts in loop order. -/
noncomputable def detect_conflicts (now : ℝ) (aircraft_list : List Aircraft) :
    List ConflictAlert :=
  (allPairs aircraft_list).filterMap fun p => pair_alert now p.1 p.2

/-! ## ConflictDetectionAgent: active-conflict registry

A Python `dict` with string keys, as an insertion-ordered association
list. `navda` keeps registry keys unique because every write goes
through `d[k] = v`. -/

/-- Insertion-ordered association list standing in for `Dict[str, α]`. -/
abbrev PyDict (α : Type) := List (String × α)

/-- Python `k in d`. -/
def dictContains {α : Type} (d : PyDict α) (k : String) : Bool :=
  d.any fun p => p.1 == k

/-- Python `d[k]` (as an `Option`; the registry code only indexes keys
it has checked). -/
def dictLookup {α : Type} (d : PyDict α) (k : String) : Option α :=
  (d.find? fun p => p.1 == k).map Prod.snd

/-- Python `d[k] = v`: replace in place when the key is present,
append otherwise. -/
def dictInsert {α : Type} (d : PyDict α) (k : String) (v : α) : PyDict α :=
  if dictContains d k then
    d.map fun p => if p.1 == k then (k, v) else p
  else d ++ [(k, v)]

/-- Python `del d[k]`. -/
def dictDelete {α : Type} (d : PyDict α) (k : String) : PyDict α :=
  d.filter fun p => p.1 != k

/-- The mutable state of `ConflictDetectionAgent` that the registry
operations touch: `self.active_conflicts` and `self.detection_count`. -/
structure DetectorState where
  active_conflicts : PyDict ConflictAlert := []
  detection_count : ℕ := 0

/-- The registry key of `_process_detected_conflicts`:
`f"{conflict.aircraft1.icao24}_{conflict.aircraft2.icao24}"`. -/
def conflict_key (conflict : ConflictAlert) : String :=
  conflict.aircraft1.icao24 ++ "_" ++ conflict.aircraft2.icao24

/-- The loop body of `_process_detected_conflicts` for one conflict: a
fresh key stores the alert and bumps the detection counter (and fires
the notification callbacks, which carry no state modelled here); an
already-active key is silently overwritten. -/
def process_one_conflict (st : DetectorState) (conflict : ConflictAlert) :
    DetectorState :=
  let key := conflict_key conflict
  if dictContains st.active_conflicts key then
    { st with active_conflicts := dictInsert st.active_conflicts key conflict }
  else
    { active_conflicts := dictInsert st.active_conflicts key conflict
      detection_count := st.detection_count + 1 }

/-- `_process_detected_conflicts`: store each detected conflict under
its pair key, in detection order. -/
def _process_detected_conflicts (s : DetectorState)
    (conflicts : List ConflictAlert) : DetectorState :=
  conflicts.foldl process_one_conflict s

/-- `resolve_conflict`: drop the entry when the id is active, otherwise
do nothing (the Python body is a guarded `del`, so an unknown id raises
no error). -/
def resolve_conflict (s : DetectorState) (conflict_id : String) :
    DetectorState :=
  if dictContains s.active_conflicts conflict_id then
    { s with active_conflicts := dictDelete s.active_conflicts conflict_id }
  else s

/-! ## ResolutionAgent: data model (resolution_agent.py) -/

/-- Types of resolution strategies (`StrategyType`). -/
inductive StrategyType where
  | heading_change
  | altitude_change
  | speed_adjustment
  | vector_clearance
  | holding_pattern
  | route_deviation
  | combined
deriving DecidableEq, Repr

/-- Priority levels for resolution strategies (`PriorityLevel`). -/
inductive PriorityLevel where
  | critical
  | high
  | medium
  | low
deriving DecidableEq, Repr

/-- The numeric `.value` of a `PriorityLevel` member (lower = more urgent). -/
def PriorityLevel.value : PriorityLevel → ℕ
  | .critical => 1
  | .high => 2
  | .medium => 3
  | .low => 4

/-- One per-aircraft action dict of a strategy. The generators build
heterogeneous dicts; this structure carries the union of their keys,
with the `dict.get(key, default)` defaults of the scoring functions as
field defaults, so an absent key reads as its Python default. -/
structure Action where
  aircraft : String := ""
  action : String := ""
  direction : String := ""
  angle : ℝ := 0
  new_heading : ℝ := 0
  altitude_change : ℝ := 0
  new_altitude : ℝ := 0
  speed_change : ℝ := 0
  new_speed : ℝ := 0
  heading : ℝ := 0
  duration : ℝ := 0
  fix : String := ""
  pattern : String := ""

/-- A suggested resolution (`ResolutionStrategy` dataclass). The
display-only `strategy_id` and `description` strings, the fixed-label
`impact_assessment` dict, `created_at`, and the always-empty
`prerequisites` / `follow_up_actions` lists are omitted: nothing in the
embedded core reads them. `expires_at` is in clock seconds. -/
structure ResolutionStrategy where
  strategy_type : StrategyType
  confidence : ℝ
  priority : PriorityLevel
  actions : List Action
  estimated_resolution_time : ℝ
  success_probability : ℝ := 0
  complexity_score : ℝ := 0
  fuel_impact : ℝ := 0
  delay_impact : ℝ := 0
  safety_improvement : ℝ := 0
  expires_at : Option ℝ := none

/-- `self.max_strategies_per_conflict`. -/
def max_strategies_per_conflict : ℕ := 5
/-- `self.min_confidence_threshold` of the resolution agent. -/
def min_confidence_threshold : ℝ := 0.5
/-- `self.strategy_expiry_minutes`. -/
def strategy_expiry_minutes : ℝ := 10

/-- Shared per-conflict precomputation (`_analyze_conflict`). The dict
also carries copies of the conflict fields, per-aircraft summaries and
fixed weather (impact 0.2) / airspace (0.1) stub scores, but the only
entry any generator reads back is `traffic_density`. -/
structure ConflictAnalysis where
  traffic_density : ℝ

/-! ## ResolutionAgent: geometry and scoring helpers -/

noncomputable section

/-- Python `math.atan2 y x`, via the complex argument (range `(−π, π]`,
`atan2 0 0 = 0`, matching `math.atan2` on the reals). -/
def atan2 (y x : ℝ) : ℝ := Complex.arg ⟨x, y⟩

/-- `math.degrees`: radians to degrees. -/
def degrees (r : ℝ) : ℝ := r * (180 / Real.pi)

/-- Python float `%` (result has the sign of the divisor):
`a - b * ⌊a / b⌋`. -/
def pyMod (a b : ℝ) : ℝ := a - b * ⌊a / b⌋

/-- `_calculate_distance` of the resolution agent: a verbatim copy of
the detector's haversine `calculate_distance`. -/
def _calculate_distance (lat1 lon1 lat2 lon2 : ℝ) : ℝ :=
  calculate_distance lat1 lon1 lat2 lon2

/-- `_calculate_relative_bearing`: initial great-circle bearing from
aircraft1 to aircraft2, normalised to `[0, 360)`. -/
def _calculate_relative_bearing (aircraft1 aircraft2 : Aircraft) : ℝ :=
  let lat1 := radians aircraft1.latitude
  let lon1 := radians aircraft1.longitude
  let lat2 := radians aircraft2.latitude
  let lon2 := radians aircraft2.longitude
  let dlon := lon2 - lon1
  let y := Real.sin dlon * Real.cos lat2
  let x := Real.cos lat1 * Real.sin lat2 -
    Real.sin lat1 * Real.cos lat2 * Real.cos dlon
  pyMod (degrees (atan2 y x) + 360) 360

/-- `_calculate_avoidance_vector`: 90° to the right of the relative
bearing. -/
def _calculate_avoidance_vector (aircraft1 aircraft2 : Aircraft) : ℝ :=
  pyMod (_calculate_relative_bearing aircraft1 aircraft2 + 90) 360

/-- `_calculate_traffic_density`: aircraft within 20 NM of the conflict
midpoint, normalised by 100. -/
def _calculate_traffic_density (conflict : ConflictAlert)
    (aircraft_list : List Aircraft) : ℝ :=
  let conflict_lat := (conflict.aircraft1.latitude + conflict.aircraft2.latitude) / 2
  let conflict_lon := (conflict.aircraft1.longitude + conflict.aircraft2.longitude) / 2
  let nearby_aircraft : ℕ := aircraft_list.foldl
    (fun nearby aircraft =>
      if _calculate_distance conflict_lat conflict_lon
          aircraft.latitude aircraft.longitude ≤ 20 then nearby + 1 else nearby)
    0
  (nearby_aircraft : ℝ) / 100

/-- `_analyze_conflict` (the read-back fragment; see `ConflictAnalysis`). -/
def _analyze_conflict (conflict : ConflictAlert)
    (aircraft_list : List Aircraft) : ConflictAnalysis :=
  { traffic_density := _calculate_traffic_density conflict aircraft_list }

/-- `_calculate_confidence`: baseline 0.7 adjusted by severity and
strategy type, clamped to `[0, 1]`. The severity adjustments compare the
`SeverityLevel` member against strings (`severityEqPyStr`), so they
never fire; the strategy-type adjustments are genuine str-to-str
comparisons. -/
def _calculate_confidence (conflict : ConflictAlert)
    (strategy_type : String) : ℝ :=
  let base_confidence : ℝ := 0.7
  let base_confidence :=
    if severityEqPyStr conflict.severity "critical" then base_confidence + 0.2
    else if severityEqPyStr conflict.severity "high" then base_confidence + 0.1
    else if severityEqPyStr conflict.severity "low" then base_confidence - 0.1
    else base_confidence
  let base_confidence :=
    if strategy_type = "heading_change" then base_confidence + 0.1
    else if strategy_type = "altitude_change" then base_confidence + 0.05
    else if strategy_type = "speed_adjustment" then base_confidence - 0.05
    else base_confidence
  min (max base_confidence 0) 1

/-- `_calculate_success_probability`: baseline 0.7 adjusted by severity
(genuine enum comparisons here), strategy type, and traffic density,
clamped to `[0, 1]`. -/
def _calculate_success_probability (conflict : ConflictAlert)
    (strategy_type : String) (conflict_analysis : ConflictAnalysis) : ℝ :=
  let base_probability : ℝ := 0.7
  let base_probability :=
    if conflict.severity = SeverityLevel.critical then base_probability + 0.2
    else if conflict.severity = SeverityLevel.high then base_probability + 0.1
    else if conflict.severity = SeverityLevel.low then base_probability - 0.1
    else base_probability
  let base_probability :=
    if strategy_type = "heading_change" then base_probability + 0.1
    else if strategy_type = "altitude_change" then base_probability + 0.05
    else if strategy_type = "speed_adjustment" then base_probability - 0.05
    else base_probability
  let traffic_density := conflict_analysis.traffic_density
  let base_probability :=
    if 0.7 < traffic_density then base_probability - 0.1 else base_probability
  min (max base_probability 0) 1

/-- `_calculate_complexity_score`: 0.3 base + 0.1 per action + 0.1 per
distinct action type (`set` size) + 0.2 × traffic density, clamped. -/
def _calculate_complexity_score (actions : List Action)
    (conflict_analysis : ConflictAnalysis) : ℝ :=
  let base_complexity : ℝ := 0.3
  let base_complexity := base_complexity + (actions.length : ℝ) * 0.1
  let action_types := (actions.map (fun a => a.action)).dedup
  let base_complexity := base_complexity + (action_types.length : ℝ) * 0.1
  let base_complexity := base_complexity + conflict_analysis.traffic_density * 0.2
  min (max base_complexity 0) 1

/-- `_calculate_fuel_impact`: additive per-action-type fuel cost in kg. -/
def _calculate_fuel_impact (actions : List Action)
    (_conflict_analysis : ConflictAnalysis) : ℝ :=
  actions.foldl
    (fun fuel_impact a =>
      if a.action = "heading_change" then fuel_impact + 5
      else if a.action = "altitude_change" then
        fuel_impact + |a.altitude_change| * 0.01
      else if a.action = "speed_adjustment" then
        fuel_impact + |a.speed_change| * 0.1
      else fuel_impact)
    0

/-- `_calculate_delay_impact`: additive per-action-type delay in minutes. -/
def _calculate_delay_impact (actions : List Action)
    (_conflict_analysis : ConflictAnalysis) : ℝ :=
  actions.foldl
    (fun delay_impact a =>
      if a.action = "heading_change" then delay_impact + 2
      else if a.action = "altitude_change" then delay_impact + 3
      else if a.action = "speed_adjustment" then delay_impact + 5
      else if a.action = "holding_pattern" then delay_impact + 10
      else delay_impact)
    0

/-! ## ResolutionAgent: the seven strategy generators

Each is `Optional[ResolutionStrategy]` in the source but none of the
seven ever returns `None`; a generator that raises is embedded as
`Except.error`, which the `try/except` in
`generate_resolution_strategies` turns into a skip. -/

/-- `_suggest_heading_change`: opposite turns. The turn angle chain
compares the `SeverityLevel` member against strings, so `base_angle` is
always the default 15. -/
def _suggest_heading_change (conflict : ConflictAlert)
    (_aircraft_list : List Aircraft)
    (conflict_analysis : ConflictAnalysis) : Except String ResolutionStrategy :=
  let aircraft1 := conflict.aircraft1
  let aircraft2 := conflict.aircraft2
  let relative_bearing := _calculate_relative_bearing aircraft1 aircraft2
  let turn1_direction := if 0 < relative_bearing then "left" else "right"
  let turn2_direction := if 0 < relative_bearing then "right" else "left"
  let base_angle : ℝ :=
    if severityEqPyStr conflict.severity "critical" then 45
    else if severityEqPyStr conflict.severity "high" then 30
    else if severityEqPyStr conflict.severity "medium" then 20
    else 15
  let actions : List Action :=
    [{ aircraft := aircraft1.callsign, action := "heading_change",
       direction := turn1_direction, angle := base_angle,
       new_heading := pyMod (aircraft1.heading +
         (if turn1_direction = "right" then base_angle else -base_angle)) 360 },
     { aircraft := aircraft2.callsign, action := "heading_change",
       direction := turn2_direction, angle := base_angle,
       new_heading := pyMod (aircraft2.heading +
         (if turn2_direction = "right" then base_angle else -base_angle)) 360 }]
  let confidence := _calculate_confidence conflict "heading_change"
  let success_probability :=
    _calculate_success_probability conflict "heading_change" conflict_analysis
  let complexity_score := _calculate_complexity_score actions conflict_analysis
  let fuel_impact := _calculate_fuel_impact actions conflict_analysis
  let delay_impact := _calculate_delay_impact actions conflict_analysis
  .ok
    { strategy_type := StrategyType.heading_change
      confidence := confidence
      priority :=
        if conflict.severity = SeverityLevel.critical ∨
            conflict.severity = SeverityLevel.high
        then PriorityLevel.critical else PriorityLevel.high
      actions := actions
      estimated_resolution_time := 60 + base_angle * 2
      success_probability := success_probability
      complexity_score := complexity_score
      fuel_impact := fuel_impact
      delay_impact := delay_impact
      safety_improvement := 0.8 }

/-- `_suggest_altitude_change`: climb the lower aircraft, descend the
higher. The magnitude chain compares the enum against strings, so
`altitude_change` is always the default 1000 ft. -/
def _suggest_altitude_change (conflict : ConflictAlert)
    (_aircraft_list : List Aircraft)
    (conflict_analysis : ConflictAnalysis) : Except String ResolutionStrategy :=
  let aircraft1 := conflict.aircraft1
  let aircraft2 := conflict.aircraft2
  let climb_aircraft :=
    if aircraft2.altitude < aircraft1.altitude then aircraft2 else aircraft1
  let descend_aircraft :=
    if aircraft2.altitude < aircraft1.altitude then aircraft1 else aircraft2
  let altitude_change : ℝ :=
    if severityEqPyStr conflict.severity "critical" then 2000
    else if severityEqPyStr conflict.severity "high" then 1500
    else 1000
  let actions : List Action :=
    [{ aircraft := climb_aircraft.callsign, action := "altitude_change",
       direction := "climb", altitude_change := altitude_change,
       new_altitude := climb_aircraft.altitude + altitude_change },
     { aircraft := descend_aircraft.callsign, action := "altitude_change",
       direction := "descend", altitude_change := altitude_change,
       new_altitude := descend_aircraft.altitude - altitude_change }]
  let confidence := _calculate_confidence conflict "altitude_change"
  let success_probability :=
    _calculate_success_probability conflict "altitude_change" conflict_analysis
  let complexity_score := _calculate_complexity_score actions conflict_analysis
  let fuel_impact := _calculate_fuel_impact actions conflict_analysis
  let delay_impact := _calculate_delay_impact actions conflict_analysis
  .ok
    { strategy_type := StrategyType.altitude_change
      confidence := confidence
      priority :=
        if conflict.severity = SeverityLevel.critical ∨
            conflict.severity = SeverityLevel.high
        then PriorityLevel.high else PriorityLevel.medium
      actions := actions
      estimated_resolution_time := 120 + altitude_change / 10
      success_probability := success_probability
      complexity_score := complexity_score
      fuel_impact := fuel_impact
      delay_impact := delay_impact
      safety_improvement := 0.9 }

/-- `_suggest_speed_adjustment`: symmetric speed reduction floored at
200 kt. The reduction chain compares the enum against strings, so
`speed_reduction` is always the default 50 kt. (`speed_diff` is
computed and never used, as in the source.) -/
def _suggest_speed_adjustment (conflict : ConflictAlert)
    (_aircraft_list : List Aircraft)
    (conflict_analysis : ConflictAnalysis) : Except String ResolutionStrategy :=
  let aircraft1 := conflict.aircraft1
  let aircraft2 := conflict.aircraft2
  let _speed_diff := |aircraft1.velocity - aircraft2.velocity|
  let speed_reduction : ℝ :=
    if severityEqPyStr conflict.severity "critical" then 100
    else if severityEqPyStr conflict.severity "high" then 75
    else 50
  let speed1_kts := aircraft1.velocity * 1.944
  let speed2_kts := aircraft2.velocity * 1.944
  let actions : List Action :=
    [{ aircraft := aircraft1.callsign, action := "speed_adjustment",
       speed_change := -speed_reduction,
       new_speed := max (speed1_kts - speed_reduction) 200 },
     { aircraft := aircraft2.callsign, action := "speed_adjustment",
       speed_change := -speed_reduction,
       new_speed := max (speed2_kts - speed_reduction) 200 }]
  let confidence := _calculate_confidence conflict "speed_adjustment"
  let success_probability :=
    _calculate_success_probability conflict "speed_adjustment" conflict_analysis
  let complexity_score := _calculate_complexity_score actions conflict_analysis
  let fuel_impact := _calculate_fuel_impact actions conflict_analysis
  let delay_impact := _calculate_delay_impact actions conflict_analysis
  .ok
    { strategy_type := StrategyType.speed_adjustment
      confidence := confidence
      priority := PriorityLevel.medium
      actions := actions
      estimated_resolution_time := 180
      success_probability := success_probability
      complexity_score := complexity_score
      fuel_impact := fuel_impact
      delay_impact := delay_impact
      safety_improvement := 0.6 }

/-- `_suggest_vector_clearance` always raises. The body computes the
avoidance vector and actions, then builds
`description = f"Vector ... heading {vector_angle:03d}°, ..."`; the
integer format code `d` applied to the float `vector_angle` raises
`ValueError`, so the constructor call never completes and
`generate_resolution_strategies` skips this generator. -/
def _suggest_vector_clearance (conflict : ConflictAlert)
    (_aircraft_list : List Aircraft)
    (_conflict_analysis : ConflictAnalysis) : Except String ResolutionStrategy :=
  let aircraft1 := conflict.aircraft1
  let aircraft2 := conflict.aircraft2
  let _vector_angle := _calculate_avoidance_vector aircraft1 aircraft2
  .error "ValueError: Unknown format code d for object of type float"

/-- `_suggest_holding_pattern`: the lower aircraft enters a standard
hold for 10 minutes. -/
def _suggest_holding_pattern (conflict : ConflictAlert)
    (_aircraft_list : List Aircraft)
    (conflict_analysis : ConflictAnalysis) : Except String ResolutionStrategy :=
  let aircraft1 := conflict.aircraft1
  let aircraft2 := conflict.aircraft2
  let holding_aircraft :=
    if aircraft1.altitude < aircraft2.altitude then aircraft1 else aircraft2
  let actions : List Action :=
    [{ aircraft := holding_aircraft.callsign, action := "holding_pattern",
       fix := "Hold at " ++ holding_aircraft.callsign ++ " current position",
       pattern := "standard", duration := 600 }]
  let confidence := _calculate_confidence conflict "holding_pattern"
  let success_probability :=
    _calculate_success_probability conflict "holding_pattern" conflict_analysis
  let complexity_score := _calculate_complexity_score actions conflict_analysis
  let fuel_impact := _calculate_fuel_impact actions conflict_analysis
  let delay_impact := _calculate_delay_impact actions conflict_analysis
  .ok
    { strategy_type := StrategyType.holding_pattern
      confidence := confidence
      priority := PriorityLevel.low
      actions := actions
      estimated_resolution_time := 600
      success_probability := success_probability
      complexity_score := complexity_score
      fuel_impact := fuel_impact
      delay_impact := delay_impact
      safety_improvement := 0.95 }

/-- `_suggest_route_deviation` always raises: both the waypoint f-string
in its actions and its description interpolate `{deviation_angle:03d}`
with a float `deviation_angle`, raising `ValueError`, so
`generate_resolution_strategies` skips this generator. -/
def _suggest_route_deviation (conflict : ConflictAlert)
    (_aircraft_list : List Aircraft)
    (_conflict_analysis : ConflictAnalysis) : Except String ResolutionStrategy :=
  let aircraft1 := conflict.aircraft1
  let aircraft2 := conflict.aircraft2
  let _deviation_angle := _calculate_avoidance_vector aircraft1 aircraft2
  let _deviation_distance : ℝ := 10
  .error "ValueError: Unknown format code d for object of type float"

/-- `_suggest_combined_strategy`: simultaneous 15° opposite turns and
25 kt speed reductions on both aircraft. -/
def _suggest_combined_strategy (conflict : ConflictAlert)
    (_aircraft_list : List Aircraft)
    (conflict_analysis : ConflictAnalysis) : Except String ResolutionStrategy :=
  let aircraft1 := conflict.aircraft1
  let aircraft2 := conflict.aircraft2
  let actions : List Action :=
    [{ aircraft := aircraft1.callsign, action := "heading_change",
       direction := "left", angle := 15,
       new_heading := pyMod (aircraft1.heading - 15) 360 },
     { aircraft := aircraft1.callsign, action := "speed_adjustment",
       speed_change := -25,
       new_speed := max (aircraft1.velocity * 1.944 - 25) 200 },
     { aircraft := aircraft2.callsign, action := "heading_change",
       direction := "right", angle := 15,
       new_heading := pyMod (aircraft2.heading + 15) 360 },
     { aircraft := aircraft2.callsign, action := "speed_adjustment",
       speed_change := -25,
       new_speed := max (aircraft2.velocity * 1.944 - 25) 200 }]
  let confidence := _calculate_confidence conflict "combined"
  let success_probability :=
    _calculate_success_probability conflict "combined" conflict_analysis
  let complexity_score := _calculate_complexity_score actions conflict_analysis
  let fuel_impact := _calculate_fuel_impact actions conflict_analysis
  let delay_impact := _calculate_delay_impact actions conflict_analysis
  .ok
    { strategy_type := StrategyType.combined
      confidence := confidence
      priority := PriorityLevel.high
      actions := actions
      estimated_resolution_time := 180
      success_probability := success_probability
      complexity_score := complexity_score
      fuel_impact := fuel_impact
      delay_impact := delay_impact
      safety_improvement := 0.95 }

/-- `self.resolution_strategies`, in the insertion order of
`_initialize_strategy_mapping` (a Python dict iterates in insertion
order). -/
def resolution_strategies :
    List (ConflictAlert → List Aircraft → ConflictAnalysis →
      Except String ResolutionStrategy) :=
  [_suggest_heading_change, _suggest_altitude_change,
   _suggest_speed_adjustment, _suggest_vector_clearance,
   _suggest_holding_pattern, _suggest_route_deviation,
   _suggest_combined_strategy]

/-- The sort key of `generate_resolution_strategies`
(`(priority.value, -confidence, -success_probability)` ascending
lexicographically) as a total preorder; the Python stable `list.sort`
is embedded as `List.insertionSort` with this relation. -/
def strategy_key_le (a b : ResolutionStrategy) : Prop :=
  a.priority.value < b.priority.value ∨
    (a.priority.value = b.priority.value ∧
      (b.confidence < a.confidence ∨
        (a.confidence = b.confidence ∧
          b.success_probability ≤ a.success_probability)))

instance : DecidableRel strategy_key_le := fun a b => by
  unfold strategy_key_le; exact inferInstance

/-- `generate_resolution_strategies`: run the seven generators (a
raising generator is skipped by the `try/except`), keep candidates at
or above the confidence threshold, sort by priority then confidence
then success probability, truncate to the cap, and stamp every survivor
with the same expiry `now + 10 min`. (The Python guard `if strategy`
never rejects: no generator returns `None`.) -/
def generate_resolution_strategies (now : ℝ) (conflict : ConflictAlert)
    (aircraft_list : List Aircraft) : List ResolutionStrategy :=
  let conflict_analysis := _analyze_conflict conflict aircraft_list
  let strategies := resolution_strategies.filterMap fun strategy_func =>
    match strategy_func conflict aircraft_list conflict_analysis with
    | .ok strategy =>
      if min_confidence_threshold ≤ strategy.confidence then some strategy
      else none
    | .error _ => none
  let strategies := List.insertionSort strategy_key_le strategies
  let strategies := strategies.take max_strategies_per_conflict
  strategies.map fun strategy =>
    { strategy with expires_at := some (now + 60 * strategy_expiry_minutes) }

end

/-! ## AgentCoordinator (agent_coordinator.py)

Event timestamps and priorities only ever get compared, so they are
modelled over `ℚ`/`ℤ` and the whole fragment stays executable. A
handler is a function returning `Except String Unit`: `.error`
embeds a raised exception. The untyped `data` payload dict is omitted;
no coordinator control flow modelled here reads it. -/

/-- Types of events that can be coordinated (`EventType`). -/
inductive EventType where
  | conflict_detected
  | conflict_resolved
  | resolution_generated
  | resolution_accepted
  | resolution_rejected
  | aircraft_update
  | system_status
  | error
deriving DecidableEq, Repr

/-- An event in the coordination system (`AgentEvent` dataclass). -/
structure AgentEvent where
  event_id : String
  event_type : EventType
  timestamp : ℚ
  source_agent : String
  priority : ℤ := 1
  processed : Bool := false
deriving DecidableEq, Repr

/-- A registered event handler; `.error` embeds a raised exception. -/
abbrev EventHandler := AgentEvent → Except String Unit

/-- `self.max_event_history`. -/
def max_event_history : ℕ := 1000

/-- The coordinator state touched by event processing and the history
query: `self.event_queue`, `self.event_history` and the two counters. -/
structure CoordinatorState where
  event_queue : List AgentEvent := []
  event_history : List AgentEvent := []
  events_processed : ℕ := 0
  events_failed : ℕ := 0
deriving Repr

/-- The handler loop of `_process_event`: call each handler in
registration order; a raised exception is caught by the per-handler
`try/except` (logged) and the loop continues, so one outcome is
collected per handler. -/
def runHandlers (handlers : List EventHandler) (event : AgentEvent) :
    List (Except String Unit) :=
  match handlers with
  | [] => []
  | handler :: rest => handler event :: runHandlers rest event

/-- `_process_event`: dispatch one event to every handler registered for
its type. The handler registry is modelled as a total map; an event type
that was never registered maps to `[]` (Python logs a warning and runs
nothing — same effect). -/
def _process_event (handlers : EventType → List EventHandler)
    (event : AgentEvent) : List (Except String Unit) :=
  runHandlers (handlers event.event_type) event

/-- The batch selection of `_process_events`: up to 10 events from the
front of the queue that are not yet processed. -/
def events_to_process (s : CoordinatorState) : List AgentEvent :=
  (s.event_queue.take 10).filter fun event => !event.processed

/-- The in-place `event.processed = True` mutation, applied by id to
every aliased occurrence of a batch event (queue and batch share the
Python objects; ids are assumed unique where it matters, and theorems
about this model carry that hypothesis). -/
def markProcessed (batch_ids : List String) (event : AgentEvent) :
    AgentEvent :=
  if event.event_id ∈ batch_ids then { event with processed := true }
  else event

/-- One `event_history.append` followed by the cap at
`max_event_history` (keep the most recent entries). -/
def appendHistory (history : List AgentEvent) (event : AgentEvent) :
    List AgentEvent :=
  let history := history ++ [event]
  if max_event_history < history.length then
    history.drop (history.length - max_event_history)
  else history

/-- `_process_events`: dispatch the batch, mark every batch event
processed (the success path and the `except` path both set the flag, so
a poison event is not retried), rebuild the queue without processed
events, and archive the batch into the capped history. In this
embedding `_process_event` is total — handler exceptions are consumed
inside it — so the outer `except` never fires: `events_processed`
grows by the batch size and `events_failed` is unchanged. -/
def _process_events (handlers : EventType → List EventHandler)
    (s : CoordinatorState) : CoordinatorState :=
  let batch := events_to_process s
  let batch_ids := batch.map fun event => event.event_id
  let _outcomes := batch.map (_process_event handlers)
  let event_queue :=
    (s.event_queue.map (markProcessed batch_ids)).filter
      fun event => !event.processed
  let event_history :=
    (batch.map (markProcessed batch_ids)).foldl appendHistory s.event_history
  { event_queue := event_queue
    event_history := event_history
    events_processed := s.events_processed + batch.length
    events_failed := s.events_failed }

/-- The comparison of `get_event_history`'s
`sort(key=lambda x: x.timestamp, reverse=True)`: newest first. -/
def newest_first (a b : AgentEvent) : Prop := b.timestamp ≤ a.timestamp

instance : DecidableRel newest_first := fun a b => by
  unfold newest_first; exact inferInstance

/-- Python's stable in-place sort, newest first. -/
def sort_newest_first (history : List AgentEvent) : List AgentEvent :=
  List.insertionSort newest_first history

/-- `get_event_history`: with a type filter the comprehension builds a
fresh list, which is then sorted and truncated — the stored history is
untouched; without a filter `history` aliases `self.event_history`, so
`history.sort(...)` reorders the stored list in place. Returns the
result list (the per-event dict projection is omitted) and the
post-call state. -/
def get_event_history (s : CoordinatorState) (event_type : Option EventType)
    (limit : ℕ) : List AgentEvent × CoordinatorState :=
  match event_type with
  | some t =>
    let history := s.event_history.filter fun event =>
      decide (event.event_type = t)
    let history := sort_newest_first history
    (history.take limit, s)
  | none =>
    let history := sort_newest_first s.event_history
    (history.take limit, { s with event_history := history })

/-! ## Concrete fixtures for witnesses and counterexamples -/

/-- A test aircraft at (40°N, 74°W, 35 000 ft). -/
noncomputable def acA : Aircraft :=
  { icao24 := "AAA111", callsign := "TEST1", latitude := 40,
    longitude := -74, altitude := 35000, velocity := 250, heading := 90,
    vertical_rate := 0 }

/-- A second test aircraft at the same latitude, longitude and
altitude as `acA`. -/
noncomputable def acB : Aircraft :=
  { icao24 := "BBB222", callsign := "TEST2", latitude := 40,
    longitude := -74, altitude := 35000, velocity := 250, heading := 270,
    vertical_rate := 0 }

/-- A concrete alert for the `acA`/`acB` pair (registry fixtures). -/
noncomputable def alertAB : ConflictAlert :=
  { aircraft1 := acA, aircraft2 := acB, time_to_conflict := 0,
    separation_distance := 0, vertical_separation := 0,
    conflict_type := ConflictType.both, severity := SeverityLevel.critical,
    suggested_actions := [] }

/-- A detector state holding the `acA`/`acB` alert under its pair key. -/
noncomputable def detStateAB : DetectorState :=
  { active_conflicts := [("AAA111_BBB222", alertAB)], detection_count := 1 }

/-- A handler that always raises. -/
def failing_handler : EventHandler := fun _ => Except.error "boom"

/-- A handler that succeeds. -/
def ok_handler : EventHandler := fun _ => Except.ok ()

/-- A registry with a failing handler before a succeeding one, for
every event type. -/
def test_handlers : EventType → List EventHandler :=
  fun _ => [failing_handler, ok_handler]

/-- A pending conflict-detected event. -/
def ev1 : AgentEvent :=
  { event_id := "ev1", event_type := EventType.conflict_detected,
    timestamp := 1, source_agent := "conflict_detector" }

/-- A second pending event, newer than `ev1`. -/
def ev2 : AgentEvent :=
  { event_id := "ev2", event_type := EventType.aircraft_update,
    timestamp := 2, source_agent := "aircraft_tracker" }

/-- A coordinator state with both test events queued. -/
def coordState0 : CoordinatorState := { event_queue := [ev1, ev2] }

/-- A coordinator state whose archived history is out of timestamp
order (oldest first). -/
def coordStateHist : CoordinatorState := { event_history := [ev1, ev2] }

/-! ## Geodesy lemmas -/

/-- The haversine intermediate vanishes at identical points. -/
theorem haversine_a_self (lat lon : ℝ) : haversine_a lat lon lat lon = 0 := by
  unfold haversine_a
  simp

/-- The haversine distance vanishes at identical points. -/
theorem calculate_distance_self (lat lon : ℝ) :
    calculate_distance lat lon lat lon = 0 := by
  unfold calculate_distance central_angle
  rw [haversine_a_self]
  simp

/-- Squared sine is even in the half-angle difference. -/
theorem sin_sq_half_sub_comm (x y : ℝ) :
    Real.sin ((x - y) / 2) ^ 2 = Real.sin ((y - x) / 2) ^ 2 := by
  rw [show (x - y) / 2 = -((y - x) / 2) by ring, Real.sin_neg]
  ring

/-- The haversine intermediate is symmetric under swapping the points. -/
theorem haversine_a_comm (lat1 lon1 lat2 lon2 : ℝ) :
    haversine_a lat1 lon1 lat2 lon2 = haversine_a lat2 lon2 lat1 lon1 := by
  unfold haversine_a
  rw [sin_sq_half_sub_comm (radians lat2) (radians lat1),
    sin_sq_half_sub_comm (radians lon2) (radians lon1)]
  ring

/-- The Earth radius constant is nonnegative. -/
theorem earth_radius_nm_nonneg : (0 : ℝ) ≤ earth_radius_nm := by
  unfold earth_radius_nm; norm_num

/-- C7: `calculate_distance` is 0 for identical points, symmetric under
argument swap, and monotone in the angular separation of the two
points: the distance is `earth_radius_nm` times the central angle
`2·asin(√a)`, so it is monotone both in the haversine intermediate `a`
(through `√` and `asin`, the analytic content) and in the central angle
itself. -/
theorem C7_calculate_distance_props :
    (∀ lat lon : ℝ, calculate_distance lat lon lat lon = 0) ∧
    (∀ lat1 lon1 lat2 lon2 : ℝ,
      calculate_distance lat1 lon1 lat2 lon2 =
        calculate_distance lat2 lon2 lat1 lon1) ∧
    (∀ a b c d e f g k : ℝ,
      haversine_a a b c d ≤ haversine_a e f g k →
      calculate_distance a b c d ≤ calculate_distance e f g k) ∧
    (∀ a b c d e f g k : ℝ,
      central_angle a b c d ≤ central_angle e f g k →
      calculate_distance a b c d ≤ calculate_distance e f g k) := by
  refine ⟨calculate_distance_self, ?_, ?_, ?_⟩
  · intro lat1 lon1 lat2 lon2
    unfold calculate_distance central_angle
    rw [haversine_a_comm]
  · intro a b c d e f g k h
    unfold calculate_distance central_angle
    have h1 : Real.sqrt (haversine_a a b c d) ≤ Real.sqrt (haversine_a e f g k) :=
      Real.sqrt_le_sqrt h
    have h2 := Real.monotone_arcsin h1
    apply mul_le_mul_of_nonneg_left _ earth_radius_nm_nonneg
    linarith
  · intro a b c d e f g k h
    unfold calculate_distance
    exact mul_le_mul_of_nonneg_left h earth_radius_nm_nonneg

/-- Witness for C7 at a concrete point: the zero and monotonicity parts
applied at (40, −74) against itself. -/
theorem C7_calculate_distance_witness :
    calculate_distance 40 (-74) 40 (-74) = 0 ∧
    calculate_distance 40 (-74) 40 (-74) ≤ calculate_distance 40 (-74) 40 (-74) :=
  ⟨C7_calculate_distance_props.1 40 (-74),
   C7_calculate_distance_props.2.2.1 40 (-74) 40 (-74) 40 (-74) 40 (-74)
     (le_refl _)⟩

/-! ## Detection confidence and deadline -/

/-- Clamping `min (max c 0) 1` keeps any value already at least 1/2
inside `[1/2, 1]`. -/
theorem clamp_bounds (c : ℝ) (hc : 1 / 2 ≤ c) :
    1 / 2 ≤ min (max c 0) 1 ∧ min (max c 0) 1 ≤ 1 :=
  ⟨le_min (le_trans hc (le_max_left c 0)) (by norm_num), min_le_right _ _⟩

set_option maxHeartbeats 1600000 in
/-- C8: the conflict confidence is always in `[0.5, 1]` — the base is
0.5, every adjustment before the clamp is a nonnegative bonus, and the
final clamp cannot pull a value ≥ 0.5 below it. -/
theorem C8_confidence_in_range (aircraft1 aircraft2 : Aircraft)
    (time_to_conflict horizontal_sep vertical_sep : ℝ) :
    1 / 2 ≤ calculate_conflict_confidence aircraft1 aircraft2 time_to_conflict
        horizontal_sep vertical_sep ∧
      calculate_conflict_confidence aircraft1 aircraft2 time_to_conflict
        horizontal_sep vertical_sep ≤ 1 := by
  unfold calculate_conflict_confidence
  exact clamp_bounds _ (by split_ifs <;> norm_num)

/-- C9: an alert created with time-to-conflict 0 — which is exactly how
the current-breach branch of `detect_conflicts` creates alerts — is
Critical and carries resolution deadline `now − 30`, already in the
past at creation time. -/
theorem C9_breach_deadline_in_past (now : ℝ) (aircraft1 aircraft2 : Aircraft)
    (horizontal_sep vertical_sep : ℝ)
    (hh : horizontal_sep < horizontal_separation_min)
    (hv : vertical_sep < vertical_separation_min) :
    (_create_conflict_alert now aircraft1 aircraft2 0 horizontal_sep
        vertical_sep).severity = SeverityLevel.critical ∧
    (_create_conflict_alert now aircraft1 aircraft2 0 horizontal_sep
        vertical_sep).resolution_deadline = some (now - 30) ∧
    now - 30 < now := by
  refine ⟨?_, ?_, by linarith⟩ <;>
    · unfold _create_conflict_alert
      norm_num [sub_eq_add_neg]

/-- Witness for C9: both separations 0 (identical positions). -/
theorem C9_breach_deadline_in_past_witness :
    (_create_conflict_alert 0 acA acB 0 0 0).severity =
        SeverityLevel.critical ∧
    (_create_conflict_alert 0 acA acB 0 0 0).resolution_deadline =
        some ((0 : ℝ) - 30) ∧
    (0 : ℝ) - 30 < 0 :=
  C9_breach_deadline_in_past 0 acA acB 0 0
    (by unfold horizontal_separation_min; norm_num)
    (by unfold vertical_separation_min; norm_num)

/-! ## Detection of a currently-breached pair (C4) -/

/-- Every ordered pair `(x, y)` with `x` before `y` in the list is
visited by the nested loops of `detect_conflicts`. -/
theorem mem_allPairs {α : Type} (pre mid post : List α) (x y : α) :
    (x, y) ∈ allPairs (pre ++ x :: mid ++ y :: post) := by
  induction pre with
  | nil =>
    simp only [List.nil_append, allPairs, List.mem_append, List.mem_map]
    exact Or.inl ⟨y, by simp, rfl⟩
  | cons z zs ih =>
    simp only [List.cons_append, allPairs, List.mem_append]
    exact Or.inr ih

/-- The per-pair body of `detect_conflicts` takes the current-breach
branch for two aircraft at the same latitude, longitude and altitude:
both current separations are 0, violating both minima. -/
theorem pair_alert_same_position (now : ℝ) (a1 a2 : Aircraft)
    (hlat : a2.latitude = a1.latitude) (hlon : a2.longitude = a1.longitude)
    (halt : a2.altitude = a1.altitude) :
    pair_alert now a1 a2 = some (_create_conflict_alert now a1 a2 0 0 0) := by
  unfold pair_alert
  rw [hlat, hlon, halt, calculate_distance_self]
  norm_num [calculate_vertical_separation, horizontal_separation_min,
    vertical_separation_min]

/-- C4: two distinct aircraft at identical latitude, longitude and
altitude in the same snapshot always produce an alert for that pair
with time-to-conflict 0, severity Critical and conflict type Both. -/
theorem C4_identical_position_alert (now : ℝ)
    (aircraft_list pre mid post : List Aircraft) (a1 a2 : Aircraft)
    (hlist : aircraft_list = pre ++ a1 :: mid ++ a2 :: post)
    (hne : a1 ≠ a2)
    (hlat : a2.latitude = a1.latitude) (hlon : a2.longitude = a1.longitude)
    (halt : a2.altitude = a1.altitude) :
    ∃ c ∈ detect_conflicts now aircraft_list,
      c.aircraft1 = a1 ∧ c.aircraft2 = a2 ∧ c.time_to_conflict = 0 ∧
      c.severity = SeverityLevel.critical ∧
      c.conflict_type = ConflictType.both := by
  subst hlist
  refine ⟨_create_conflict_alert now a1 a2 0 0 0, ?_, rfl, rfl, rfl, ?_, ?_⟩
  · unfold detect_conflicts
    exact List.mem_filterMap.mpr ⟨(a1, a2), mem_allPairs pre mid post a1 a2,
      pair_alert_same_position now a1 a2 hlat hlon halt⟩
  · unfold _create_conflict_alert
    norm_num
  · unfold _create_conflict_alert
    norm_num [horizontal_separation_min, vertical_separation_min]

/-- Witness for C4: `acA` and `acB` share latitude, longitude and
altitude and differ in id; `detect_conflicts` on the two-aircraft
snapshot reports their Critical, type-Both, time-0 conflict. -/
theorem C4_identical_position_alert_witness :
    ∃ c ∈ detect_conflicts 0 [acA, acB],
      c.aircraft1 = acA ∧ c.aircraft2 = acB ∧ c.time_to_conflict = 0 ∧
      c.severity = SeverityLevel.critical ∧
      c.conflict_type = ConflictType.both :=
  C4_identical_position_alert 0 [acA, acB] [] [] [] acA acB rfl
    (fun h => by
      have h2 := congrArg Aircraft.icao24 h
      simp [acA, acB] at h2)
    rfl rfl rfl

/-! ## Association-list (Python dict) lemmas -/

theorem dictContains_cons {α : Type} (p : String × α) (t : PyDict α)
    (k : String) :
    dictContains (p :: t) k = ((p.1 == k) || dictContains t k) := rfl

theorem dictLookup_cons {α : Type} (p : String × α) (t : PyDict α)
    (k : String) :
    dictLookup (p :: t) k =
      if p.1 == k then some p.2 else dictLookup t k := by
  by_cases h : (p.1 == k) = true
  · simp [dictLookup, List.find?_cons_of_pos, h]
  · simp only [Bool.not_eq_true] at h
    simp [dictLookup, List.find?_cons_of_neg, h]

theorem dictDelete_cons {α : Type} (p : String × α) (t : PyDict α)
    (k : String) :
    dictDelete (p :: t) k =
      if p.1 == k then dictDelete t k else p :: dictDelete t k := by
  by_cases h : (p.1 == k) = true
  · simp [dictDelete, List.filter_cons, h, bne]
  · simp only [Bool.not_eq_true] at h
    simp [dictDelete, List.filter_cons, h, bne]

theorem contains_true_iff {α : Type} (d : PyDict α) (k : String) :
    dictContains d k = true ↔ k ∈ d.map Prod.fst := by
  simp only [dictContains, List.any_eq_true, List.mem_map]
  constructor
  · rintro ⟨p, hp, he⟩
    exact ⟨p, hp, by simpa using he⟩
  · rintro ⟨p, hp, he⟩
    exact ⟨p, hp, by simp [he]⟩

theorem dictDelete_of_contains_false {α : Type} {d : PyDict α} {k : String}
    (h : dictContains d k = false) : dictDelete d k = d := by
  induction d with
  | nil => rfl
  | cons p t ih =>
    rw [dictContains_cons, Bool.or_eq_false_iff] at h
    rw [dictDelete_cons, if_neg (by simp [h.1]), ih h.2]

theorem dictContains_dictDelete_self {α : Type} (d : PyDict α) (k : String) :
    dictContains (dictDelete d k) k = false := by
  induction d with
  | nil => rfl
  | cons p t ih =>
    rw [dictDelete_cons]
    by_cases h : (p.1 == k) = true
    · rw [if_pos h]; exact ih
    · rw [if_neg h, dictContains_cons, ih]
      simpa using h

theorem dictLookup_dictDelete_self {α : Type} (d : PyDict α) (k : String) :
    dictLookup (dictDelete d k) k = none := by
  induction d with
  | nil => rfl
  | cons p t ih =>
    rw [dictDelete_cons]
    by_cases h : (p.1 == k) = true
    · rw [if_pos h]; exact ih
    · rw [if_neg h, dictLookup_cons, if_neg h]; exact ih

theorem dictLookup_dictDelete_ne {α : Type} (d : PyDict α) {k k' : String}
    (hne : k' ≠ k) : dictLookup (dictDelete d k) k' = dictLookup d k' := by
  induction d with
  | nil => rfl
  | cons p t ih =>
    rw [dictDelete_cons, dictLookup_cons]
    by_cases h : (p.1 == k) = true
    · have hk' : (p.1 == k') = false := by
        have hpk : p.1 = k := by simpa using h
        rw [hpk]
        exact beq_eq_false_iff_ne.mpr (Ne.symm hne)
      rw [if_pos h, if_neg (by simp [hk'] : ¬(p.1 == k') = true)] at *
      exact ih
    · rw [if_neg h, dictLookup_cons]
      by_cases hq : (p.1 == k') = true
      · rw [if_pos hq, if_pos hq]
      · rw [if_neg hq, if_neg hq]; exact ih

theorem dictDelete_length {α : Type} (d : PyDict α) (k : String)
    (hnd : (d.map Prod.fst).Nodup) (hc : dictContains d k = true) :
    (dictDelete d k).length + 1 = d.length := by
  induction d with
  | nil => simp [dictContains] at hc
  | cons p t ih =>
    simp only [List.map_cons, List.nodup_cons] at hnd
    rw [dictDelete_cons]
    by_cases h : (p.1 == k) = true
    · have hpk : p.1 = k := by simpa using h
      have htc : dictContains t k = false := by
        cases htc0 : dictContains t k with
        | false => rfl
        | true => exact absurd ((contains_true_iff t k).mp htc0) (hpk ▸ hnd.1)
      rw [if_pos h, dictDelete_of_contains_false htc, List.length_cons]
    · have h' : (p.1 == k) = false := by simpa using h
      have htc : dictContains t k = true := by
        rw [dictContains_cons, h', Bool.false_or] at hc
        exact hc
      have h2 := ih hnd.2 htc
      rw [if_neg h, List.length_cons, List.length_cons]
      omega

/-- C5: `resolve_conflict` on an absent id (including an id already
resolved) is a no-op and raises no error — the Lean embedding is total
and returns the state unchanged, and a second resolve of the same id is
the identity; on an active id it removes exactly that entry: one entry
fewer, that id gone, all other lookups unchanged. -/
theorem C5_resolve_conflict_props (s : DetectorState) (conflict_id : String) :
    (dictContains s.active_conflicts conflict_id = false →
      resolve_conflict s conflict_id = s) ∧
    resolve_conflict (resolve_conflict s conflict_id) conflict_id =
      resolve_conflict s conflict_id ∧
    ((s.active_conflicts.map Prod.fst).Nodup →
      dictContains s.active_conflicts conflict_id = true →
      (resolve_conflict s conflict_id).active_conflicts.length + 1 =
          s.active_conflicts.length ∧
      dictLookup (resolve_conflict s conflict_id).active_conflicts
          conflict_id = none ∧
      ∀ k, k ≠ conflict_id →
        dictLookup (resolve_conflict s conflict_id).active_conflicts k =
          dictLookup s.active_conflicts k) := by
  refine ⟨fun h => by simp [resolve_conflict, h], ?_, fun hnd hc => ?_⟩
  · by_cases h : dictContains s.active_conflicts conflict_id = true
    · simp [resolve_conflict, h, dictContains_dictDelete_self]
    · have h' : dictContains s.active_conflicts conflict_id = false := by
        simpa using h
      simp [resolve_conflict, h']
  · refine ⟨?_, ?_, fun k hk => ?_⟩
    · simpa [resolve_conflict, hc] using
        dictDelete_length s.active_conflicts conflict_id hnd hc
    · simp [resolve_conflict, hc, dictLookup_dictDelete_self]
    · simp [resolve_conflict, hc, dictLookup_dictDelete_ne _ hk]

/-- Witness for C5: resolving a missing id in a one-entry registry is a
no-op, and resolving the present id removes it. -/
theorem C5_resolve_conflict_props_witness :
    resolve_conflict detStateAB "missing" = detStateAB ∧
    dictLookup (resolve_conflict detStateAB "AAA111_BBB222").active_conflicts
      "AAA111_BBB222" = none :=
  ⟨(C5_resolve_conflict_props detStateAB "missing").1 (by decide),
   ((C5_resolve_conflict_props detStateAB "AAA111_BBB222").2.2 (by decide)
     (by decide)).2.1⟩

/-! ## Dict-insert lemmas and the active-conflict registry (C2) -/

theorem dictInsert_of_contains_true {α : Type} {d : PyDict α} {k : String}
    (v : α) (h : dictContains d k = true) :
    dictInsert d k v = d.map fun p => if p.1 == k then (k, v) else p := by
  simp [dictInsert, h]

theorem dictInsert_of_contains_false {α : Type} {d : PyDict α} {k : String}
    (v : α) (h : dictContains d k = false) :
    dictInsert d k v = d ++ [(k, v)] := by
  simp [dictInsert, h]

theorem keys_map_replace {α : Type} (d : PyDict α) (k : String) (v : α) :
    ((d.map fun p => if p.1 == k then (k, v) else p).map Prod.fst) =
      d.map Prod.fst := by
  induction d with
  | nil => rfl
  | cons p t ih =>
    by_cases h : (p.1 == k) = true
    · have hpk : p.1 = k := by simpa using h
      simp only [List.map_cons, h, if_pos, ih]
      rw [hpk]
    · simp only [List.map_cons, if_neg (by simp [h] : ¬(p.1 == k) = true), ih]

theorem dictInsert_keys_nodup {α : Type} (d : PyDict α) (k : String) (v : α)
    (hnd : (d.map Prod.fst).Nodup) :
    ((dictInsert d k v).map Prod.fst).Nodup := by
  cases hcase : dictContains d k with
  | true =>
    rw [dictInsert_of_contains_true v hcase, keys_map_replace]
    exact hnd
  | false =>
    rw [dictInsert_of_contains_false v hcase, List.map_append]
    refine List.Nodup.append hnd (List.nodup_singleton k) ?_
    intro a ha hb
    simp only [List.map_cons, List.map_nil, List.mem_singleton] at hb
    subst hb
    exact absurd ((contains_true_iff d a).mpr ha) (by simp [hcase])

theorem dictLookup_append_right {α : Type} {d : PyDict α} {k : String}
    (e : PyDict α) (h : dictContains d k = false) :
    dictLookup (d ++ e) k = dictLookup e k := by
  induction d with
  | nil => rfl
  | cons p t ih =>
    rw [dictContains_cons, Bool.or_eq_false_iff] at h
    rw [List.cons_append, dictLookup_cons, if_neg (by simp [h.1])]
    exact ih h.2

theorem dictLookup_map_replace {α : Type} (d : PyDict α) (k : String) (v : α)
    (h : dictContains d k = true) :
    dictLookup (d.map fun p => if p.1 == k then (k, v) else p) k = some v := by
  induction d with
  | nil => simp [dictContains] at h
  | cons p t ih =>
    by_cases hp : (p.1 == k) = true
    · simp only [List.map_cons, hp, if_pos]
      rw [dictLookup_cons, if_pos (by simp)]
    · have h' : dictContains t k = true := by
        rw [dictContains_cons, (by simpa using hp : (p.1 == k) = false),
          Bool.false_or] at h
        exact h
      simp only [List.map_cons, if_neg (by simp [hp] : ¬(p.1 == k) = true)]
      rw [dictLookup_cons, if_neg (by simp [hp] : ¬(p.1 == k) = true)]
      exact ih h'

theorem dictLookup_dictInsert_self {α : Type} (d : PyDict α) (k : String)
    (v : α) : dictLookup (dictInsert d k v) k = some v := by
  cases hcase : dictContains d k with
  | true =>
    rw [dictInsert_of_contains_true v hcase]
    exact dictLookup_map_replace d k v hcase
  | false =>
    rw [dictInsert_of_contains_false v hcase, dictLookup_append_right _ hcase,
      dictLookup_cons, if_pos (by simp)]

theorem dictContains_dictInsert_of_contains {α : Type} (d : PyDict α)
    (k k' : String) (v : α) (h : dictContains d k' = true) :
    dictContains (dictInsert d k v) k' = true := by
  cases hcase : dictContains d k with
  | true =>
    rw [contains_true_iff] at h ⊢
    rw [dictInsert_of_contains_true v hcase, keys_map_replace]
    exact h
  | false =>
    rw [dictInsert_of_contains_false v hcase, contains_true_iff,
      List.map_append]
    exact List.mem_append_left _ ((contains_true_iff d k').mp h)

theorem dictInsert_length_of_contains {α : Type} (d : PyDict α) (k : String)
    (v : α) (h : dictContains d k = true) :
    (dictInsert d k v).length = d.length := by
  rw [dictInsert_of_contains_true v h, List.length_map]

theorem process_one_conflict_active (st : DetectorState) (c : ConflictAlert) :
    (process_one_conflict st c).active_conflicts =
      dictInsert st.active_conflicts (conflict_key c) c := by
  unfold process_one_conflict
  dsimp only
  split <;> rfl

theorem process_keys_nodup (cs : List ConflictAlert) (s : DetectorState)
    (hnd : (s.active_conflicts.map Prod.fst).Nodup) :
    ((_process_detected_conflicts s cs).active_conflicts.map Prod.fst).Nodup := by
  induction cs generalizing s with
  | nil => exact hnd
  | cons c cs ih =>
    unfold _process_detected_conflicts at ih ⊢
    rw [List.foldl_cons]
    exact ih _ (by
      rw [process_one_conflict_active]
      exact dictInsert_keys_nodup _ _ _ hnd)

theorem process_preserves_contains (cs : List ConflictAlert)
    (s : DetectorState) (k : String)
    (h : dictContains s.active_conflicts k = true) :
    dictContains (_process_detected_conflicts s cs).active_conflicts k =
      true := by
  induction cs generalizing s with
  | nil => exact h
  | cons c cs ih =>
    unfold _process_detected_conflicts at ih ⊢
    rw [List.foldl_cons]
    exact ih _ (by
      rw [process_one_conflict_active]
      exact dictContains_dictInsert_of_contains _ _ _ _ h)

theorem create_alert_aircraft1 (now : ℝ) (a1 a2 : Aircraft) (t h v : ℝ) :
    (_create_conflict_alert now a1 a2 t h v).aircraft1 = a1 := rfl

theorem create_alert_aircraft2 (now : ℝ) (a1 a2 : Aircraft) (t h v : ℝ) :
    (_create_conflict_alert now a1 a2 t h v).aircraft2 = a2 := rfl

/-- Counterexample to C2: the registry key is the ordered pair
`f"{aircraft1.icao24}_{aircraft2.icao24}"`, not an unordered one.
Detecting the identically-positioned pair from the snapshot
`[acA, acB]` and then from `[acB, acA]` leaves two simultaneous active
entries — keys `"AAA111_BBB222"` and `"BBB222_AAA111"` — for the same
two aircraft, so a later detection of the same unordered pair in the
opposite snapshot order duplicates rather than replaces. -/
theorem C2_counterexample_unordered_pair_duplicated :
    ((_process_detected_conflicts
        (_process_detected_conflicts ⟨[], 0⟩ (detect_conflicts 0 [acA, acB]))
        (detect_conflicts 0 [acB, acA])).active_conflicts.map
      fun p => (p.1, p.2.aircraft1.icao24, p.2.aircraft2.icao24)) =
      [("AAA111_BBB222", "AAA111", "BBB222"),
       ("BBB222_AAA111", "BBB222", "AAA111")] := by
  have h1 : detect_conflicts 0 [acA, acB] =
      [_create_conflict_alert 0 acA acB 0 0 0] := by
    unfold detect_conflicts
    simp [allPairs, pair_alert_same_position 0 acA acB rfl rfl rfl]
  have h2 : detect_conflicts 0 [acB, acA] =
      [_create_conflict_alert 0 acB acA 0 0 0] := by
    unfold detect_conflicts
    simp [allPairs, pair_alert_same_position 0 acB acA rfl rfl rfl]
  rw [h1, h2]
  rfl

/-- C2 as amended: the registry holds at most one entry per ordered
`(aircraft1, aircraft2)` id pair. Key uniqueness is preserved by any
detect-and-process sequence; processing never removes an active entry
(removal happens only in `resolve_conflict`); and processing a conflict
whose ordered pair key is already active replaces that entry in place —
same registry size, and the key now looks up the new alert. (As the
counterexample shows, the same two aircraft can still appear under both
orientations of the key, so the unordered-pair reading of the original
claim is false.) -/
theorem C2_amended_ordered_pair_registry (s : DetectorState)
    (cs : List ConflictAlert) (c : ConflictAlert) (k : String)
    (hnd : (s.active_conflicts.map Prod.fst).Nodup)
    (hk : dictContains s.active_conflicts k = true)
    (hc : dictContains s.active_conflicts (conflict_key c) = true) :
    ((_process_detected_conflicts s cs).active_conflicts.map Prod.fst).Nodup ∧
    dictContains (_process_detected_conflicts s cs).active_conflicts k =
      true ∧
    (_process_detected_conflicts s [c]).active_conflicts.length =
      s.active_conflicts.length ∧
    dictLookup (_process_detected_conflicts s [c]).active_conflicts
      (conflict_key c) = some c := by
  refine ⟨process_keys_nodup cs s hnd, process_preserves_contains cs s k hk,
    ?_, ?_⟩
  · rw [show _process_detected_conflicts s [c] = process_one_conflict s c
      from rfl, process_one_conflict_active]
    exact dictInsert_length_of_contains _ _ _ hc
  · rw [show _process_detected_conflicts s [c] = process_one_conflict s c
      from rfl, process_one_conflict_active]
    exact dictLookup_dictInsert_self _ _ _

/-- Witness for the amended C2 on a one-entry registry whose key is the
ordered pair key of the stored alert. -/
theorem C2_amended_ordered_pair_registry_witness :
    ((_process_detected_conflicts detStateAB []).active_conflicts.map
      Prod.fst).Nodup ∧
    dictContains (_process_detected_conflicts detStateAB []).active_conflicts
      "AAA111_BBB222" = true ∧
    (_process_detected_conflicts detStateAB [alertAB]).active_conflicts.length =
      detStateAB.active_conflicts.length ∧
    dictLookup (_process_detected_conflicts detStateAB
      [alertAB]).active_conflicts (conflict_key alertAB) = some alertAB :=
  C2_amended_ordered_pair_registry detStateAB [] alertAB "AAA111_BBB222"
    (by decide) (by decide) (by decide)

/-! ## Resolution agent theorems (C1, C3) -/

/-- C1 (code bug): the heading-change generator turns BOTH aircraft by
15°, whatever the alert severity. The severity chain in
`_suggest_heading_change` compares the `SeverityLevel` enum member
against the strings `"critical"`/`"high"`/`"medium"`, which is always
`False` in Python, so the 45°/30°/20° branches are dead for every alert
the detector creates — in particular a Critical alert gets 15°, not the
45° the specification states. -/
theorem C1_heading_change_angle_ignores_severity (conflict : ConflictAlert)
    (aircraft_list : List Aircraft) (conflict_analysis : ConflictAnalysis) :
    (_suggest_heading_change conflict aircraft_list conflict_analysis).map
        (fun s => s.actions.map Action.angle) = Except.ok [15, 15] ∧
    ([15, 15] : List ℝ) ≠ [45, 45] := by
  refine ⟨rfl, fun h => ?_⟩
  rw [List.cons.injEq] at h
  exact absurd h.1 (by norm_num)

/-- C3: `generate_resolution_strategies` returns at most 5 strategies
and every returned strategy has confidence at least the 0.5 default
threshold: candidates below the threshold are filtered out before the
sort, the sort permutes, the cap truncates to 5, and the expiry stamp
leaves confidence untouched. -/
theorem C3_generate_at_most_five_confident (now : ℝ)
    (conflict : ConflictAlert) (aircraft_list : List Aircraft) :
    (generate_resolution_strategies now conflict aircraft_list).length ≤ 5 ∧
    ∀ s ∈ generate_resolution_strategies now conflict aircraft_list,
      (1 / 2 : ℝ) ≤ s.confidence := by
  unfold generate_resolution_strategies
  dsimp only
  constructor
  · rw [List.length_map]
    exact le_trans (List.length_take_le _ _) (by norm_num
      [max_strategies_per_conflict])
  · intro s hs
    rcases List.mem_map.mp hs with ⟨t, ht, rfl⟩
    have ht2 : t ∈ List.insertionSort strategy_key_le
        (resolution_strategies.filterMap fun strategy_func =>
          match strategy_func conflict aircraft_list
              (_analyze_conflict conflict aircraft_list) with
          | .ok strategy =>
            if min_confidence_threshold ≤ strategy.confidence then
              some strategy
            else none
          | .error _ => none) :=
      List.mem_of_mem_take ht
    have ht3 := (List.mem_insertionSort strategy_key_le).mp ht2
    rcases List.mem_filterMap.mp ht3 with ⟨g, _, hfg⟩
    cases hgc : g conflict aircraft_list
        (_analyze_conflict conflict aircraft_list) with
    | error e => rw [hgc] at hfg; simp at hfg
    | ok s' =>
      rw [hgc] at hfg
      dsimp only at hfg
      by_cases hconf : min_confidence_threshold ≤ s'.confidence
      · rw [if_pos hconf, Option.some.injEq] at hfg
        subst hfg
        show (1 / 2 : ℝ) ≤ s'.confidence
        unfold min_confidence_threshold at hconf
        linarith
      · rw [if_neg hconf] at hfg
        simp at hfg

/-! ## Coordinator lemmas (C6, C10) -/

theorem runHandlers_append (pre post : List EventHandler) (h : EventHandler)
    (e : AgentEvent) :
    runHandlers (pre ++ h :: post) e =
      runHandlers pre e ++ h e :: runHandlers post e := by
  induction pre with
  | nil => rfl
  | cons g gs ih => simp [runHandlers, ih]

theorem markProcessed_event_id (ids : List String) (e : AgentEvent) :
    (markProcessed ids e).event_id = e.event_id := by
  unfold markProcessed
  split <;> rfl

theorem markProcessed_of_mem {ids : List String} {e : AgentEvent}
    (h : e.event_id ∈ ids) :
    markProcessed ids e = { e with processed := true } := by
  unfold markProcessed
  rw [if_pos h]

theorem mem_queue_of_mem_batch {s : CoordinatorState} {e : AgentEvent}
    (h : e ∈ events_to_process s) : e ∈ s.event_queue :=
  List.mem_of_mem_take (List.mem_of_mem_filter h)

theorem events_to_process_length_le (s : CoordinatorState) :
    (events_to_process s).length ≤ 10 := by
  unfold events_to_process
  exact le_trans (List.length_filter_le _ _) (s.event_queue.length_take_le 10)

theorem process_events_queue_ids_subset
    (handlers : EventType → List EventHandler) (s : CoordinatorState) :
    ∀ i ∈ (_process_events handlers s).event_queue.map AgentEvent.event_id,
      i ∈ s.event_queue.map AgentEvent.event_id := by
  intro i hi
  unfold _process_events at hi
  dsimp only at hi
  rcases List.mem_map.mp hi with ⟨x, hx, rfl⟩
  rcases List.mem_map.mp (List.mem_of_mem_filter hx) with ⟨y, hy, rfl⟩
  rw [markProcessed_event_id]
  exact List.mem_map_of_mem _ hy

theorem process_events_removes_batch
    (handlers : EventType → List EventHandler) {s : CoordinatorState}
    {e : AgentEvent} (he : e ∈ events_to_process s)
    (hnd : (s.event_queue.map AgentEvent.event_id).Nodup) :
    e.event_id ∉
      (_process_events handlers s).event_queue.map AgentEvent.event_id := by
  intro hmem
  unfold _process_events at hmem
  dsimp only at hmem
  rcases List.mem_map.mp hmem with ⟨x, hx, hxid⟩
  have hx2 := List.mem_filter.mp hx
  rcases List.mem_map.mp hx2.1 with ⟨y, hy, rfl⟩
  rw [markProcessed_event_id] at hxid
  have heq : y = e :=
    List.inj_on_of_nodup_map hnd hy (mem_queue_of_mem_batch he) hxid
  subst heq
  rw [markProcessed_of_mem
    (List.mem_map_of_mem AgentEvent.event_id he)] at hx2
  simpa using hx2.2

theorem appendHistory_suffix {t h0 : List AgentEvent} (a : AgentEvent)
    (hs : t <:+ h0) (hlen : t.length + 1 ≤ max_event_history) :
    (t ++ [a]) <:+ appendHistory h0 a := by
  rcases hs with ⟨p, rfl⟩
  unfold appendHistory
  dsimp only
  by_cases hc : max_event_history < (p ++ t ++ [a]).length
  · rw [if_pos hc, List.append_assoc, List.drop_append_eq_append_drop]
    have hk0 : (p ++ (t ++ [a])).length - max_event_history - p.length = 0 := by
      simp only [List.length_append, List.length_cons, List.length_nil]
      omega
    rw [hk0, List.drop_zero]
    exact ⟨_, rfl⟩
  · rw [if_neg hc, List.append_assoc]
    exact ⟨p, rfl⟩

theorem foldl_appendHistory_suffix (es : List AgentEvent) :
    ∀ h0 t : List AgentEvent, t <:+ h0 →
      t.length + es.length ≤ max_event_history →
      (t ++ es) <:+ es.foldl appendHistory h0 := by
  induction es with
  | nil =>
    intro h0 t hs _
    simpa using hs
  | cons a es ih =>
    intro h0 t hs hlen
    rw [List.foldl_cons]
    have h1 : (t ++ [a]) <:+ appendHistory h0 a :=
      appendHistory_suffix a hs (by simp at hlen ⊢; omega)
    have h2 := ih (appendHistory h0 a) (t ++ [a]) h1
      (by simp at hlen ⊢; omega)
    simpa [List.append_assoc] using h2

theorem mem_foldl_appendHistory {es : List AgentEvent} {x : AgentEvent}
    (h0 : List AgentEvent) (hx : x ∈ es)
    (hlen : es.length ≤ max_event_history) :
    x ∈ es.foldl appendHistory h0 := by
  have h := foldl_appendHistory_suffix es h0 [] List.nil_suffix
    (by simpa using hlen)
  exact h.subset (by simpa using hx)

/-- C6: a raising handler does not block its siblings, and a dispatched
event is marked processed and archived, never to be dispatched again.
Conjuncts: (1) the handler loop records one outcome per handler, with
any handler `h` still invoked after an arbitrary (possibly failing)
prefix `pre`; (2) the processed-marked copy of a dispatched event is
archived in the history; (3) after the cycle that dispatched it — and
after any number of further cycles — the event id is gone from the
queue; (4) hence no later cycle ever selects it for dispatch again. -/
theorem C6_handler_failure_is_isolated
    (handlers : EventType → List EventHandler) (pre post : List EventHandler)
    (h : EventHandler) (s : CoordinatorState) (e : AgentEvent) (n : ℕ)
    (he : e ∈ events_to_process s)
    (hnd : (s.event_queue.map AgentEvent.event_id).Nodup) :
    runHandlers (pre ++ h :: post) e =
        runHandlers pre e ++ h e :: runHandlers post e ∧
    { e with processed := true } ∈
        (_process_events handlers s).event_history ∧
    e.event_id ∉
        ((_process_events handlers)^[n + 1] s).event_queue.map
          AgentEvent.event_id ∧
    e.event_id ∉
        (events_to_process ((_process_events handlers)^[n + 1] s)).map
          AgentEvent.event_id := by
  have hqueue : ∀ m : ℕ, e.event_id ∉
      ((_process_events handlers)^[m + 1] s).event_queue.map
        AgentEvent.event_id := by
    intro m
    induction m with
    | zero =>
      simpa using process_events_removes_batch handlers he hnd
    | succ k ih =>
      intro hmem
      rw [Function.iterate_succ_apply'] at hmem
      exact ih (process_events_queue_ids_subset handlers _ _ hmem)
  refine ⟨runHandlers_append pre post h e, ?_, hqueue n, ?_⟩
  · unfold _process_events
    dsimp only
    have hmark : ({ e with processed := true } : AgentEvent) ∈
        (events_to_process s).map
          (markProcessed ((events_to_process s).map AgentEvent.event_id)) := by
      rw [show ({ e with processed := true } : AgentEvent) =
          markProcessed ((events_to_process s).map AgentEvent.event_id) e from
        (markProcessed_of_mem (List.mem_map_of_mem AgentEvent.event_id he)).symm]
      exact List.mem_map_of_mem _ he
    exact mem_foldl_appendHistory s.event_history hmark
      (le_trans (by simpa using events_to_process_length_le s)
        (by unfold max_event_history; omega))
  · intro hmem
    rcases List.mem_map.mp hmem with ⟨x, hx, hxid⟩
    exact hqueue n (hxid ▸ List.mem_map_of_mem _ (mem_queue_of_mem_batch hx))

/-- Witness for C6: a two-event queue, a failing handler in front of a
succeeding one, one later cycle. -/
theorem C6_handler_failure_is_isolated_witness :
    runHandlers ([failing_handler] ++ ok_handler :: []) ev1 =
        runHandlers [failing_handler] ev1 ++
          ok_handler ev1 :: runHandlers [] ev1 ∧
    { ev1 with processed := true } ∈
        (_process_events test_handlers coordState0).event_history ∧
    ev1.event_id ∉
        ((_process_events test_handlers)^[1 + 1]
          coordState0).event_queue.map AgentEvent.event_id ∧
    ev1.event_id ∉
        (events_to_process ((_process_events test_handlers)^[1 + 1]
          coordState0)).map AgentEvent.event_id :=
  C6_handler_failure_is_isolated test_handlers [failing_handler] []
    ok_handler coordState0 ev1 1 (by decide) (by decide)

/-- C10: with no type filter, `get_event_history` installs the
timestamp-descending sort of the archived history back into the state —
the Python `history.sort(...)` call mutates the aliased
`self.event_history` in place — whereas the filtered query leaves the
state untouched; the sort is a permutation of the old history, and on
the concrete out-of-order fixture the stored history really changes. -/
theorem C10_get_event_history_reorders_state (s : CoordinatorState)
    (limit : ℕ) :
    (get_event_history s none limit).2.event_history =
        sort_newest_first s.event_history ∧
    (sort_newest_first s.event_history).Perm s.event_history ∧
    (∀ t, (get_event_history s (some t) limit).2 = s) ∧
    (get_event_history coordStateHist none 1).2.event_history ≠
      coordStateHist.event_history := by
  refine ⟨rfl, List.perm_insertionSort _ _, fun t => rfl, by decide⟩

end Navda
